import Mathlib

/-!
# Constant converters of `mbgl/style/conversion/constant.hpp`

A shallow embedding of the converters of `include/mbgl/style/conversion/constant.hpp`
and the properties of them that the specification states.

* The template parameter `V` (the value representation) becomes a type `V` together with
  a record `ValueOps V F` of the six free functions the header calls on it.
* `float` is an abstract type `F`, and the accessor `toNumber` of `ValueOps` returns it,
  as the locals `optional<float>` that receive its result suggest. The accessor's
  declaration is in `conversion.hpp`; `Converter_float_from` reads the number converter
  over an accessor whose numbers have a type of their own, with the conversion to `float`
  that the initialisation of the local then performs.
* `Error& error` is state passing: a converter takes the slot's content on entry and
  returns the optional result together with the slot's content on exit.
* `Result<T>` (a variant of `T` and `Error`) is `Except Error T`.
* `std::array<float, N>` is a product of `N` numbers, `std::vector<T>` is `List T`.
* Two further readings of the same operators answer what the state-passing form cannot
  show: the `_traced` forms record every assignment to the error slot, the `_checked`
  forms end in `none` when an accessor is called outside its domain.
-/

set_option autoImplicit false

namespace Conversion

/-! ## Data model -/

/-- Error of `conversion.hpp`: a record holding one message. -/
structure Error where
  message : String
deriving DecidableEq, Repr

/-- The free functions the converters call on a value of representation `V`;
`F` is the number type (`float`). `arrayLength` is a `std::size_t`. -/
structure ValueOps (V F : Type) where
  toBool : V → Option Bool
  toNumber : V → Option F
  toString : V → Option String
  isArray : V → Bool
  arrayLength : V → Nat
  arrayMember : V → Nat → V

/-- Value of `*o` for an `optional<T> o`. For an engaged optional it is the held value.
Dereferencing a disengaged optional is undefined in C++; execution does continue, reading
the optional's unused buffer, whose content is the parameter `storage`. -/
def deref {T : Type} (storage : T) : Option T → T
  | some x => x
  | none => storage

/-! ## Primitive converters -/

section Converters

variable {V F : Type}

/-- The operator `Converter<bool>::operator()`. -/
def Converter_bool (ops : ValueOps V F) (value : V) (error : Error) : Option Bool × Error :=
  match ops.toBool value with
  | none => (none, ⟨"value must be a boolean"⟩)
  | some converted => (some converted, error)

/-- The operator `Converter<float>::operator()`. -/
def Converter_float (ops : ValueOps V F) (value : V) (error : Error) : Option F × Error :=
  match ops.toNumber value with
  | none => (none, ⟨"value must be a number"⟩)
  | some converted => (some converted, error)

/-- The operator `Converter<std::string>::operator()`. -/
def Converter_string (ops : ValueOps V F) (value : V) (error : Error) :
    Option String × Error :=
  match ops.toString value with
  | none => (none, ⟨"value must be a string"⟩)
  | some converted => (some converted, error)

/-! ## Derived converters -/

/-- The operator `Converter<T, enable_if_t<is_enum<T>>>::operator()`; `toEnum` is `Enum<T>::toEnum`,
declared in `mbgl/util/enum.hpp`. -/
def Converter_enum {T : Type} (ops : ValueOps V F) (toEnum : String → Option T)
    (value : V) (error : Error) : Option T × Error :=
  match ops.toString value with
  | none => (none, ⟨"value must be a string"⟩)
  | some string =>
    match toEnum string with
    | none => (none, ⟨"value must be a valid enumeration value"⟩)
    | some result => (some result, error)

/-- The operator `Converter<Color>::operator()`; `parse` is `Color::parse`, declared in
`mbgl/util/color.hpp`, and `C` is the type `Color`. -/
def Converter_Color {C : Type} (ops : ValueOps V F) (parse : String → Option C)
    (value : V) (error : Error) : Option C × Error :=
  match ops.toString value with
  | none => (none, ⟨"value must be a string"⟩)
  | some string =>
    match parse string with
    | none => (none, ⟨"value must be a valid color"⟩)
    | some color => (some color, error)

/-! ## Fixed-arity converters -/

/-- The operator `Converter<std::array<float, 2>>::operator()`. -/
def Converter_array2 (ops : ValueOps V F) (value : V) (error : Error) :
    Option (F × F) × Error :=
  if !ops.isArray value || ops.arrayLength value != 2 then
    (none, ⟨"value must be an array of two numbers"⟩)
  else
    let first := ops.toNumber (ops.arrayMember value 0)
    let second := ops.toNumber (ops.arrayMember value 1)
    match first, second with
    | some a, some b => (some (a, b), error)
    | _, _ => (none, ⟨"value must be an array of two numbers"⟩)

/-- The operator `Converter<std::array<float, 3>>::operator()`, the one converter of the header that
returns a `Result` and takes no error slot. -/
def Converter_array3 (ops : ValueOps V F) (value : V) : Except Error (F × F × F) :=
  if !ops.isArray value || ops.arrayLength value != 3 then
    .error ⟨"value must be an array of three numbers"⟩
  else
    let first := ops.toNumber (ops.arrayMember value 0)
    let second := ops.toNumber (ops.arrayMember value 1)
    let third := ops.toNumber (ops.arrayMember value 2)
    match first, second, third with
    | some a, some b, some c => .ok (a, b, c)
    | _, _, _ => .error ⟨"value must be an array of three numbers"⟩

/-- The operator `Converter<std::array<float, 4>>::operator()`. The test before the return is
`!first || !second`: `third` and `fourth` are dereferenced unchecked, so the function
takes the content of their buffers (see `deref`). -/
def Converter_array4 (ops : ValueOps V F) (thirdStorage fourthStorage : F)
    (value : V) (error : Error) : Option (F × F × F × F) × Error :=
  if !ops.isArray value || ops.arrayLength value != 4 then
    (none, ⟨"value must be an array of four numbers"⟩)
  else
    let first := ops.toNumber (ops.arrayMember value 0)
    let second := ops.toNumber (ops.arrayMember value 1)
    let third := ops.toNumber (ops.arrayMember value 2)
    let fourth := ops.toNumber (ops.arrayMember value 3)
    match first, second with
    | some a, some b =>
      (some (a, b, deref thirdStorage third, deref fourthStorage fourth), error)
    | _, _ => (none, ⟨"value must be an array of four numbers"⟩)

/-! ## Sequence converters -/

/-- The `for` loop of `Converter<std::vector<float>>::operator()`, entered with index `i`
and the elements pushed so far in `result`. -/
def Converter_vector_float_loop (ops : ValueOps V F) (value : V) (i : Nat)
    (result : List F) (error : Error) : Option (List F) × Error :=
  if i < ops.arrayLength value then
    match ops.toNumber (ops.arrayMember value i) with
    | none => (none, ⟨"value must be an array of numbers"⟩)
    | some number =>
      Converter_vector_float_loop ops value (i + 1) (result ++ [number]) error
  else
    (some result, error)
termination_by ops.arrayLength value - i

/-- The operator `Converter<std::vector<float>>::operator()`. -/
def Converter_vector_float (ops : ValueOps V F) (value : V) (error : Error) :
    Option (List F) × Error :=
  if !ops.isArray value then
    (none, ⟨"value must be an array"⟩)
  else
    Converter_vector_float_loop ops value 0 [] error

/-- The `for` loop of `Converter<std::vector<std::string>>::operator()`, entered with
index `i` and the elements pushed so far in `result`. -/
def Converter_vector_string_loop (ops : ValueOps V F) (value : V) (i : Nat)
    (result : List String) (error : Error) : Option (List String) × Error :=
  if i < ops.arrayLength value then
    match ops.toString (ops.arrayMember value i) with
    | none => (none, ⟨"value must be an array of strings"⟩)
    | some string =>
      Converter_vector_string_loop ops value (i + 1) (result ++ [string]) error
  else
    (some result, error)
termination_by ops.arrayLength value - i

/-- The operator `Converter<std::vector<std::string>>::operator()`. -/
def Converter_vector_string (ops : ValueOps V F) (value : V) (error : Error) :
    Option (List String) × Error :=
  if !ops.isArray value then
    (none, ⟨"value must be an array"⟩)
  else
    Converter_vector_string_loop ops value 0 [] error

/-! ## The common shape of the two loops -/

/-- A loop over the indices `i, i+1, ..` below `length` that pushes `element i` onto
`result` and stops with `message` in the error slot at the first absent element.
Both sequence loops above are instances of it (`Converter_vector_float_loop_eq`,
`Converter_vector_string_loop_eq`); it is used to reason about them once. -/
def scanLoop {α : Type} (length : Nat) (element : Nat → Option α) (message : String)
    (i : Nat) (result : List α) (error : Error) : Option (List α) × Error :=
  if i < length then
    match element i with
    | none => (none, ⟨message⟩)
    | some x => scanLoop length element message (i + 1) (result ++ [x]) error
  else
    (some result, error)
termination_by length - i

end Converters

/-! ## A sample value representation

The header is generic in the value representation. The concrete inputs below use a
JSON-like tree with integer numbers. -/

/-- A JSON-like document node. -/
inductive JsValue where
  | null
  | bool (b : Bool)
  | number (n : Int)
  | string (s : String)
  | array (items : List JsValue)
  | object

/-- The six accessors on `JsValue`. Outside its domain `arrayLength` is `0` and
`arrayMember` is `null`. -/
def jsOps : ValueOps JsValue Int where
  toBool v := match v with
    | .bool b => some b
    | _ => none
  toNumber v := match v with
    | .number n => some n
    | _ => none
  toString v := match v with
    | .string s => some s
    | _ => none
  isArray v := match v with
    | .array _ => true
    | _ => false
  arrayLength v := match v with
    | .array items => items.length
    | _ => 0
  arrayMember v i := match v with
    | .array items => items.getD i .null
    | _ => .null

/-- A second implementation of the accessors on `JsValue`: it differs from `jsOps` in
`arrayLength` and `arrayMember`, which answer `3` and the number `1` on every value,
array or not. -/
def jsOpsUnguarded : ValueOps JsValue Int where
  toBool := jsOps.toBool
  toNumber := jsOps.toNumber
  toString := jsOps.toString
  isArray := jsOps.isArray
  arrayLength _ := 3
  arrayMember _ _ := .number 1

/-- The prior content of the error slot in the concrete calls below. -/
def noError : Error := ⟨""⟩

/-- A sample enumeration: the line caps of the style specification. -/
inductive LineCapType where
  | Round
  | Butt
  | Square
deriving DecidableEq, Repr

/-- The canonical name of a line cap. -/
def LineCapType.name : LineCapType → String
  | .Round => "round"
  | .Butt => "butt"
  | .Square => "square"

/-- The lookup of a line cap by its canonical name. -/
def LineCapType.toEnum (s : String) : Option LineCapType :=
  if s = "round" then some .Round
  else if s = "butt" then some .Butt
  else if s = "square" then some .Square
  else none

/-- A sample colour type: four channels. -/
structure Rgba where
  r : Int
  g : Int
  b : Int
  a : Int
deriving DecidableEq, Repr

/-- Opaque red. -/
def Rgba.red : Rgba := ⟨1, 0, 0, 1⟩

/-- A sample colour parser that knows one colour. -/
def parseRedOnly (s : String) : Option Rgba :=
  if s = "#ff0000" then some Rgba.red else none

/-! ## The enumeration converter as the specification words it -/

/-- Specification §4.3: "convert via the string converter first; on string failure,
propagate its error verbatim. On string success, look up the string in the enumeration's
name table; on miss, Error "value must be a valid enumeration value"". -/
def enumViaStringConverter {V F T : Type} (ops : ValueOps V F) (toEnum : String → Option T)
    (value : V) (error : Error) : Option T × Error :=
  match Converter_string ops value error with
  | (none, stringError) => (none, stringError)
  | (some s, slot) =>
    match toEnum s with
    | none => (none, ⟨"value must be a valid enumeration value"⟩)
    | some c => (some c, slot)

/-! ## The converters with the assignments to `error` recorded

The state-passing form above shows the content of the error slot after a call, not how
often the call assigned it. The definitions of this section are the same operators read
once more from the header, returning next to the optional result the list of the
assignments `error = { .. }` the call performs, in order. `slotAfter` replays such a list
on a slot; `Converter_traced_agrees` ties the two forms together. -/

/-- The content of the error slot that held `error` after the assignments `assigned`. -/
def slotAfter (error : Error) (assigned : List Error) : Error :=
  assigned.foldl (fun _ e => e) error

/-- A call ends with a value or with an error: the result is absent exactly when the
error slot was assigned, and it was assigned at most once. -/
def valueOrError {T : Type} (r : Option T × List Error) : Prop :=
  (r.1 = none ↔ r.2 ≠ []) ∧ r.2.length ≤ 1

/-- The operator `Converter<bool>::operator()`, assignments recorded. -/
def Converter_bool_traced {V F : Type} (ops : ValueOps V F) (value : V) :
    Option Bool × List Error :=
  match ops.toBool value with
  | none => (none, [⟨"value must be a boolean"⟩])
  | some converted => (some converted, [])

/-- The operator `Converter<float>::operator()`, assignments recorded. -/
def Converter_float_traced {V F : Type} (ops : ValueOps V F) (value : V) :
    Option F × List Error :=
  match ops.toNumber value with
  | none => (none, [⟨"value must be a number"⟩])
  | some converted => (some converted, [])

/-- The operator `Converter<std::string>::operator()`, assignments recorded. -/
def Converter_string_traced {V F : Type} (ops : ValueOps V F) (value : V) :
    Option String × List Error :=
  match ops.toString value with
  | none => (none, [⟨"value must be a string"⟩])
  | some converted => (some converted, [])

/-- The operator `Converter<T, enable_if_t<is_enum<T>>>::operator()`, assignments
recorded. -/
def Converter_enum_traced {V F T : Type} (ops : ValueOps V F) (toEnum : String → Option T)
    (value : V) : Option T × List Error :=
  match ops.toString value with
  | none => (none, [⟨"value must be a string"⟩])
  | some string =>
    match toEnum string with
    | none => (none, [⟨"value must be a valid enumeration value"⟩])
    | some result => (some result, [])

/-- The operator `Converter<Color>::operator()`, assignments recorded. -/
def Converter_Color_traced {V F C : Type} (ops : ValueOps V F) (parse : String → Option C)
    (value : V) : Option C × List Error :=
  match ops.toString value with
  | none => (none, [⟨"value must be a string"⟩])
  | some string =>
    match parse string with
    | none => (none, [⟨"value must be a valid color"⟩])
    | some color => (some color, [])

/-- The operator `Converter<std::array<float, 2>>::operator()`, assignments recorded. -/
def Converter_array2_traced {V F : Type} (ops : ValueOps V F) (value : V) :
    Option (F × F) × List Error :=
  if !ops.isArray value || ops.arrayLength value != 2 then
    (none, [⟨"value must be an array of two numbers"⟩])
  else
    let first := ops.toNumber (ops.arrayMember value 0)
    let second := ops.toNumber (ops.arrayMember value 1)
    match first, second with
    | some a, some b => (some (a, b), [])
    | _, _ => (none, [⟨"value must be an array of two numbers"⟩])

/-- The operator `Converter<std::array<float, 4>>::operator()`, assignments recorded. -/
def Converter_array4_traced {V F : Type} (ops : ValueOps V F)
    (thirdStorage fourthStorage : F) (value : V) : Option (F × F × F × F) × List Error :=
  if !ops.isArray value || ops.arrayLength value != 4 then
    (none, [⟨"value must be an array of four numbers"⟩])
  else
    let first := ops.toNumber (ops.arrayMember value 0)
    let second := ops.toNumber (ops.arrayMember value 1)
    let third := ops.toNumber (ops.arrayMember value 2)
    let fourth := ops.toNumber (ops.arrayMember value 3)
    match first, second with
    | some a, some b =>
      (some (a, b, deref thirdStorage third, deref fourthStorage fourth), [])
    | _, _ => (none, [⟨"value must be an array of four numbers"⟩])

/-- The `for` loop of `Converter<std::vector<float>>::operator()`, assignments recorded. -/
def Converter_vector_float_loop_traced {V F : Type} (ops : ValueOps V F) (value : V)
    (i : Nat) (result : List F) : Option (List F) × List Error :=
  if i < ops.arrayLength value then
    match ops.toNumber (ops.arrayMember value i) with
    | none => (none, [⟨"value must be an array of numbers"⟩])
    | some number =>
      Converter_vector_float_loop_traced ops value (i + 1) (result ++ [number])
  else
    (some result, [])
termination_by ops.arrayLength value - i

/-- The operator `Converter<std::vector<float>>::operator()`, assignments recorded. -/
def Converter_vector_float_traced {V F : Type} (ops : ValueOps V F) (value : V) :
    Option (List F) × List Error :=
  if !ops.isArray value then
    (none, [⟨"value must be an array"⟩])
  else
    Converter_vector_float_loop_traced ops value 0 []

/-- The `for` loop of `Converter<std::vector<std::string>>::operator()`, assignments
recorded. -/
def Converter_vector_string_loop_traced {V F : Type} (ops : ValueOps V F) (value : V)
    (i : Nat) (result : List String) : Option (List String) × List Error :=
  if i < ops.arrayLength value then
    match ops.toString (ops.arrayMember value i) with
    | none => (none, [⟨"value must be an array of strings"⟩])
    | some string =>
      Converter_vector_string_loop_traced ops value (i + 1) (result ++ [string])
  else
    (some result, [])
termination_by ops.arrayLength value - i

/-- The operator `Converter<std::vector<std::string>>::operator()`, assignments
recorded. -/
def Converter_vector_string_traced {V F : Type} (ops : ValueOps V F) (value : V) :
    Option (List String) × List Error :=
  if !ops.isArray value then
    (none, [⟨"value must be an array"⟩])
  else
    Converter_vector_string_loop_traced ops value 0 []

/-- A recorded run `t` and a state-passing run `p` from the slot content `error` tell the
same call: a value and no assignment, with the slot kept, or no value and one assignment,
which is the slot's new content. -/
def sameCall {T : Type} (error : Error) (t : Option T × List Error)
    (p : Option T × Error) : Prop :=
  (∃ x, t = (some x, []) ∧ p = (some x, error)) ∨
  (∃ m, t = (none, [m]) ∧ p = (none, m))

/-! ## The array converters with the accessors' domains checked

The accessor `arrayLength` is defined on arrays only, and `arrayMember` on the indices
below the length only. The definitions of this section are the five array operators read
once more from the header, with the two accessors replaced by forms that are `none`
outside these domains: a call that leaves a domain ends in `none`, any other call in
`some` of what the operator returns. The operator `a || b` of C++ evaluates `b` only
when `a` is false, which the nested tests spell out. -/

/-- The accessor `arrayLength`, defined on arrays only. -/
def arrayLengthChecked {V F : Type} (ops : ValueOps V F) (value : V) : Option Nat :=
  if ops.isArray value then some (ops.arrayLength value) else none

/-- The accessor `arrayMember`, defined on the indices below the length of an array
only. -/
def arrayMemberChecked {V F : Type} (ops : ValueOps V F) (value : V) (i : Nat) :
    Option V :=
  if ops.isArray value && decide (i < ops.arrayLength value) then
    some (ops.arrayMember value i)
  else
    none

/-- The operator `Converter<std::array<float, 2>>::operator()`, domains checked. -/
def Converter_array2_checked {V F : Type} (ops : ValueOps V F) (value : V)
    (error : Error) : Option (Option (F × F) × Error) :=
  if !ops.isArray value then
    some (none, ⟨"value must be an array of two numbers"⟩)
  else
    match arrayLengthChecked ops value with
    | none => none
    | some length =>
      if length != 2 then
        some (none, ⟨"value must be an array of two numbers"⟩)
      else
        match arrayMemberChecked ops value 0, arrayMemberChecked ops value 1 with
        | some member0, some member1 =>
          match ops.toNumber member0, ops.toNumber member1 with
          | some a, some b => some (some (a, b), error)
          | _, _ => some (none, ⟨"value must be an array of two numbers"⟩)
        | _, _ => none

/-- The operator `Converter<std::array<float, 3>>::operator()`, domains checked. -/
def Converter_array3_checked {V F : Type} (ops : ValueOps V F) (value : V) :
    Option (Except Error (F × F × F)) :=
  if !ops.isArray value then
    some (.error ⟨"value must be an array of three numbers"⟩)
  else
    match arrayLengthChecked ops value with
    | none => none
    | some length =>
      if length != 3 then
        some (.error ⟨"value must be an array of three numbers"⟩)
      else
        match arrayMemberChecked ops value 0, arrayMemberChecked ops value 1,
          arrayMemberChecked ops value 2 with
        | some member0, some member1, some member2 =>
          match ops.toNumber member0, ops.toNumber member1, ops.toNumber member2 with
          | some a, some b, some c => some (.ok (a, b, c))
          | _, _, _ => some (.error ⟨"value must be an array of three numbers"⟩)
        | _, _, _ => none

/-- The operator `Converter<std::array<float, 4>>::operator()`, domains checked. -/
def Converter_array4_checked {V F : Type} (ops : ValueOps V F)
    (thirdStorage fourthStorage : F) (value : V) (error : Error) :
    Option (Option (F × F × F × F) × Error) :=
  if !ops.isArray value then
    some (none, ⟨"value must be an array of four numbers"⟩)
  else
    match arrayLengthChecked ops value with
    | none => none
    | some length =>
      if length != 4 then
        some (none, ⟨"value must be an array of four numbers"⟩)
      else
        match arrayMemberChecked ops value 0, arrayMemberChecked ops value 1,
          arrayMemberChecked ops value 2, arrayMemberChecked ops value 3 with
        | some member0, some member1, some member2, some member3 =>
          match ops.toNumber member0, ops.toNumber member1 with
          | some a, some b =>
            some (some (a, b, deref thirdStorage (ops.toNumber member2),
              deref fourthStorage (ops.toNumber member3)), error)
          | _, _ => some (none, ⟨"value must be an array of four numbers"⟩)
        | _, _, _, _ => none

set_option linter.unusedVariables false in
/-- The `for` loop of `Converter<std::vector<float>>::operator()`, domains checked. -/
def Converter_vector_float_loop_checked {V F : Type} (ops : ValueOps V F) (value : V)
    (i : Nat) (result : List F) (error : Error) : Option (Option (List F) × Error) :=
  match h : arrayLengthChecked ops value with
  | none => none
  | some length =>
    if i < length then
      match arrayMemberChecked ops value i with
      | none => none
      | some member =>
        match ops.toNumber member with
        | none => some (none, ⟨"value must be an array of numbers"⟩)
        | some number =>
          Converter_vector_float_loop_checked ops value (i + 1) (result ++ [number]) error
    else
      some (some result, error)
termination_by ops.arrayLength value - i
decreasing_by
  have hlen : length = ops.arrayLength value := by
    unfold arrayLengthChecked at h
    split at h <;> simp_all
  omega

/-- The operator `Converter<std::vector<float>>::operator()`, domains checked; the
first use of `arrayLength` is the argument of `result.reserve`. -/
def Converter_vector_float_checked {V F : Type} (ops : ValueOps V F) (value : V)
    (error : Error) : Option (Option (List F) × Error) :=
  if !ops.isArray value then
    some (none, ⟨"value must be an array"⟩)
  else
    match arrayLengthChecked ops value with
    | none => none
    | some _ => Converter_vector_float_loop_checked ops value 0 [] error

set_option linter.unusedVariables false in
/-- The `for` loop of `Converter<std::vector<std::string>>::operator()`, domains
checked. -/
def Converter_vector_string_loop_checked {V F : Type} (ops : ValueOps V F) (value : V)
    (i : Nat) (result : List String) (error : Error) :
    Option (Option (List String) × Error) :=
  match h : arrayLengthChecked ops value with
  | none => none
  | some length =>
    if i < length then
      match arrayMemberChecked ops value i with
      | none => none
      | some member =>
        match ops.toString member with
        | none => some (none, ⟨"value must be an array of strings"⟩)
        | some string =>
          Converter_vector_string_loop_checked ops value (i + 1) (result ++ [string]) error
    else
      some (some result, error)
termination_by ops.arrayLength value - i
decreasing_by
  have hlen : length = ops.arrayLength value := by
    unfold arrayLengthChecked at h
    split at h <;> simp_all
  omega

/-- The operator `Converter<std::vector<std::string>>::operator()`, domains checked;
the first use of `arrayLength` is the argument of `result.reserve`. -/
def Converter_vector_string_checked {V F : Type} (ops : ValueOps V F) (value : V)
    (error : Error) : Option (Option (List String) × Error) :=
  if !ops.isArray value then
    some (none, ⟨"value must be an array"⟩)
  else
    match arrayLengthChecked ops value with
    | none => none
    | some _ => Converter_vector_string_loop_checked ops value 0 [] error

/-! ## The number converter over an accessor with its own number type

The header does not fix what `toNumber` returns: it initialises an `optional<float>` with
it. The specification's accessor contract (§4.1) gives `toNumber(v) -> optional<float64>`.
-/

/-- The operator `Converter<float>::operator()` over an accessor `toNumber` whose numbers
have a type `A` of their own. The initialisation `optional<float> converted =
toNumber(value)` converts the accessor's optional to `optional<float>`: an absent one stays
absent, a present one holds the number converted to `float` by `toFloat`, the conversion
of C++ from `A` to `float` (the identity when the accessor returns `optional<float>`). -/
def Converter_float_from {V A F : Type} (toNumber : V → Option A) (toFloat : A → F)
    (value : V) (error : Error) : Option F × Error :=
  match (toNumber value).map toFloat with
  | none => (none, ⟨"value must be a number"⟩)
  | some converted => (some converted, error)

/-- The conversion of C++ from `double` to `float` (IEEE 754 binary64 to binary32, round
to nearest, ties to even) on the doubles that hold an integer `n` with `|n| ≤ 2 ^ 53`,
a double and a float each given by the integer it holds: with `s` the least shift that
leaves a significand `q` below `2 ^ 24`, the result is `q * 2 ^ s`, or `(q + 1) * 2 ^ s`
when the `s` bits dropped are more than half a unit of `q`, or exactly half with `q`
odd. -/
def doubleToFloat (n : Int) : Int :=
  let m := n.natAbs
  match (List.range 30).find? (fun s => m / 2 ^ s < 2 ^ 24) with
  | none => n
  | some s =>
    let q := m / 2 ^ s
    let r := m % 2 ^ s
    let up := decide (2 ^ s < 2 * r) || (2 * r == 2 ^ s && q % 2 == 1)
    Int.sign n * (((if up then q + 1 else q) * 2 ^ s : Nat) : Int)

/-! ## Fixed-arity converters: properties -/

/-- C1: on the array `[1, 2, "x", 4]`, whose member 2 is no number, the length-4
converter does not fail: whatever the buffer of `third` holds and whatever the error slot
held, it returns a present tuple made of members 0, 1, 3 and the buffer's content, and
leaves the error slot as it was. -/
theorem Converter_array4_third_unchecked (thirdStorage fourthStorage : Int) (error : Error) :
    jsOps.isArray (.array [.number 1, .number 2, .string "x", .number 4]) = true ∧
    jsOps.arrayLength (.array [.number 1, .number 2, .string "x", .number 4]) = 4 ∧
    jsOps.toNumber
      (jsOps.arrayMember (.array [.number 1, .number 2, .string "x", .number 4]) 2) = none ∧
    Converter_array4 jsOps thirdStorage fourthStorage
      (.array [.number 1, .number 2, .string "x", .number 4]) error
      = (some (1, 2, thirdStorage, 4), error) :=
  ⟨rfl, rfl, rfl, rfl⟩

/-- C2: on an array of length 4 whose four members are numbers, the length-4 converter
returns these four numbers in order and leaves the error slot as it was. -/
theorem Converter_array4_all_numbers {V F : Type} (ops : ValueOps V F)
    (thirdStorage fourthStorage : F) (value : V) (error : Error) (n0 n1 n2 n3 : F)
    (hArray : ops.isArray value = true) (hLength : ops.arrayLength value = 4)
    (h0 : ops.toNumber (ops.arrayMember value 0) = some n0)
    (h1 : ops.toNumber (ops.arrayMember value 1) = some n1)
    (h2 : ops.toNumber (ops.arrayMember value 2) = some n2)
    (h3 : ops.toNumber (ops.arrayMember value 3) = some n3) :
    Converter_array4 ops thirdStorage fourthStorage value error
      = (some (n0, n1, n2, n3), error) := by
  simp [Converter_array4, hArray, hLength, h0, h1, h2, h3, deref]

theorem Converter_array4_all_numbers_witness :
    Converter_array4 jsOps 0 0 (.array [.number 1, .number 2, .number 3, .number 4]) noError
      = (some (1, 2, 3, 4), noError) :=
  Converter_array4_all_numbers jsOps 0 0
    (.array [.number 1, .number 2, .number 3, .number 4]) noError 1 2 3 4
    rfl rfl rfl rfl rfl rfl

/-- C3: a value that is no array, or whose length is not the arity, fails in each of the
three fixed-arity converters with that arity's message, whatever the accessors return
for it. -/
theorem Converter_array_shape_mismatch {V F : Type} (ops : ValueOps V F)
    (thirdStorage fourthStorage : F) (value : V) (error : Error) :
    (ops.isArray value = false ∨ ops.arrayLength value ≠ 2 →
      Converter_array2 ops value error
        = (none, ⟨"value must be an array of two numbers"⟩)) ∧
    (ops.isArray value = false ∨ ops.arrayLength value ≠ 3 →
      Converter_array3 ops value
        = .error ⟨"value must be an array of three numbers"⟩) ∧
    (ops.isArray value = false ∨ ops.arrayLength value ≠ 4 →
      Converter_array4 ops thirdStorage fourthStorage value error
        = (none, ⟨"value must be an array of four numbers"⟩)) := by
  refine ⟨?_, ?_, ?_⟩
  · intro h
    have hc : (!ops.isArray value || ops.arrayLength value != 2) = true := by
      rcases h with h | h <;> simp [h]
    simp [Converter_array2, hc]
  · intro h
    have hc : (!ops.isArray value || ops.arrayLength value != 3) = true := by
      rcases h with h | h <;> simp [h]
    simp [Converter_array3, hc]
  · intro h
    have hc : (!ops.isArray value || ops.arrayLength value != 4) = true := by
      rcases h with h | h <;> simp [h]
    simp [Converter_array4, hc]

theorem Converter_array_shape_mismatch_witness :
    (jsOps.isArray (.number 5) = false ∨ jsOps.arrayLength (.number 5) ≠ 2) ∧
    (jsOps.isArray (.number 5) = false ∨ jsOps.arrayLength (.number 5) ≠ 3) ∧
    (jsOps.isArray (.number 5) = false ∨ jsOps.arrayLength (.number 5) ≠ 4) ∧
    Converter_array2 jsOps (.number 5) noError
      = (none, ⟨"value must be an array of two numbers"⟩) ∧
    Converter_array3 jsOps (.number 5)
      = .error ⟨"value must be an array of three numbers"⟩ ∧
    Converter_array4 jsOps 0 0 (.number 5) noError
      = (none, ⟨"value must be an array of four numbers"⟩) :=
  ⟨.inl rfl, .inl rfl, .inl rfl,
    (Converter_array_shape_mismatch jsOps 0 0 (.number 5) noError).1 (.inl rfl),
    (Converter_array_shape_mismatch jsOps 0 0 (.number 5) noError).2.1 (.inl rfl),
    (Converter_array_shape_mismatch jsOps 0 0 (.number 5) noError).2.2 (.inl rfl)⟩

/-- C4: on an array of length 2 the length-2 converter returns a value exactly when
members 0 and 1 are both numbers; it then returns the two numbers in order, leaving the
error slot as it was; when it returns no value the error is the arity message, which is
not the number converter's message. -/
theorem Converter_array2_spec {V F : Type} (ops : ValueOps V F) (value : V) (error : Error)
    (hArray : ops.isArray value = true) (hLength : ops.arrayLength value = 2) :
    (((Converter_array2 ops value error).1.isSome = true ↔
        (ops.toNumber (ops.arrayMember value 0)).isSome = true ∧
        (ops.toNumber (ops.arrayMember value 1)).isSome = true)) ∧
    (∀ a b, ops.toNumber (ops.arrayMember value 0) = some a →
        ops.toNumber (ops.arrayMember value 1) = some b →
        Converter_array2 ops value error = (some (a, b), error)) ∧
    ((Converter_array2 ops value error).1 = none →
        (Converter_array2 ops value error).2
          = ⟨"value must be an array of two numbers"⟩ ∧
        (Converter_array2 ops value error).2 ≠ ⟨"value must be a number"⟩) := by
  cases h0 : ops.toNumber (ops.arrayMember value 0) <;>
    cases h1 : ops.toNumber (ops.arrayMember value 1) <;>
    simp [Converter_array2, hArray, hLength, h0, h1]

theorem Converter_array2_spec_witness :
    jsOps.isArray (.array [.string "1", .string "2"]) = true ∧
    jsOps.arrayLength (.array [.string "1", .string "2"]) = 2 ∧
    Converter_array2 jsOps (.array [.string "1", .string "2"]) noError
      = (none, ⟨"value must be an array of two numbers"⟩) :=
  ⟨rfl, rfl, Prod.ext rfl
    ((Converter_array2_spec jsOps (.array [.string "1", .string "2"]) noError
      rfl rfl).2.2 rfl).1⟩

/-- C5: the length-3 converter returns the value `(n0, n1, n2)` exactly when the value is
an array of length 3 whose members 0, 1, 2 are the numbers `n0`, `n1`, `n2`; whenever it
returns no value it returns the error "value must be an array of three numbers". -/
theorem Converter_array3_spec {V F : Type} (ops : ValueOps V F) (value : V) :
    (∀ n0 n1 n2, Converter_array3 ops value = .ok (n0, n1, n2) ↔
        (ops.isArray value = true ∧ ops.arrayLength value = 3 ∧
          ops.toNumber (ops.arrayMember value 0) = some n0 ∧
          ops.toNumber (ops.arrayMember value 1) = some n1 ∧
          ops.toNumber (ops.arrayMember value 2) = some n2)) ∧
    ((¬ ∃ n0 n1 n2, ops.isArray value = true ∧ ops.arrayLength value = 3 ∧
          ops.toNumber (ops.arrayMember value 0) = some n0 ∧
          ops.toNumber (ops.arrayMember value 1) = some n1 ∧
          ops.toNumber (ops.arrayMember value 2) = some n2) →
        Converter_array3 ops value
          = .error ⟨"value must be an array of three numbers"⟩) := by
  by_cases hArray : ops.isArray value = true
  · by_cases hLength : ops.arrayLength value = 3
    · cases h0 : ops.toNumber (ops.arrayMember value 0) <;>
        cases h1 : ops.toNumber (ops.arrayMember value 1) <;>
        cases h2 : ops.toNumber (ops.arrayMember value 2) <;>
        simp [Converter_array3, hArray, hLength, h0, h1, h2]
    · simp [Converter_array3, hArray, hLength]
  · simp [Converter_array3, hArray]

theorem Converter_array3_spec_witness :
    Converter_array3 jsOps (.array [.number 1, .number 2, .number 3]) = .ok (1, 2, 3) ∧
    Converter_array3 jsOps (.array [.number 1, .string "2", .number 3])
      = .error ⟨"value must be an array of three numbers"⟩ :=
  ⟨((Converter_array3_spec jsOps (.array [.number 1, .number 2, .number 3])).1 1 2 3).2
      ⟨rfl, rfl, rfl, rfl, rfl⟩,
    (Converter_array3_spec jsOps (.array [.number 1, .string "2", .number 3])).2
      (by
        rintro ⟨n0, n1, n2, -, -, -, h, -⟩
        exact Option.noConfusion h)⟩

/-! ## Sequence converters: properties -/

theorem Converter_vector_float_loop_eq {V F : Type} (ops : ValueOps V F) (value : V)
    (error : Error) (n : Nat) : ∀ (i : Nat) (result : List F),
    ops.arrayLength value - i = n →
    Converter_vector_float_loop ops value i result error
      = scanLoop (ops.arrayLength value) (fun j => ops.toNumber (ops.arrayMember value j))
          "value must be an array of numbers" i result error := by
  induction n with
  | zero =>
    intro i result h
    have hi : ¬ i < ops.arrayLength value := by omega
    rw [Converter_vector_float_loop, scanLoop]
    simp [hi]
  | succ n ih =>
    intro i result h
    have hi : i < ops.arrayLength value := by omega
    rw [Converter_vector_float_loop, scanLoop]
    simp only [hi, if_true]
    cases ops.toNumber (ops.arrayMember value i) with
    | none => rfl
    | some x => exact ih (i + 1) (result ++ [x]) (by omega)

theorem Converter_vector_string_loop_eq {V F : Type} (ops : ValueOps V F) (value : V)
    (error : Error) (n : Nat) : ∀ (i : Nat) (result : List String),
    ops.arrayLength value - i = n →
    Converter_vector_string_loop ops value i result error
      = scanLoop (ops.arrayLength value) (fun j => ops.toString (ops.arrayMember value j))
          "value must be an array of strings" i result error := by
  induction n with
  | zero =>
    intro i result h
    have hi : ¬ i < ops.arrayLength value := by omega
    rw [Converter_vector_string_loop, scanLoop]
    simp [hi]
  | succ n ih =>
    intro i result h
    have hi : i < ops.arrayLength value := by omega
    rw [Converter_vector_string_loop, scanLoop]
    simp only [hi, if_true]
    cases ops.toString (ops.arrayMember value i) with
    | none => rfl
    | some x => exact ih (i + 1) (result ++ [x]) (by omega)

/-- An absent element at or after the entry index makes the loop fail with its message. -/
theorem scanLoop_absent {α : Type} (length : Nat) (element : Nat → Option α)
    (message : String) (error : Error) (n : Nat) : ∀ (i : Nat) (result : List α),
    length - i = n → (∃ j, i ≤ j ∧ j < length ∧ element j = none) →
    scanLoop length element message i result error = (none, ⟨message⟩) := by
  induction n with
  | zero =>
    intro i result h hex
    obtain ⟨j, hij, hj, -⟩ := hex
    omega
  | succ n ih =>
    intro i result h hex
    obtain ⟨j, hij, hj, hnone⟩ := hex
    have hi : i < length := by omega
    rw [scanLoop]
    simp only [hi, if_true]
    cases hx : element i with
    | none => rfl
    | some x =>
      have hne : i ≠ j := by
        rintro rfl
        rw [hx] at hnone
        exact Option.noConfusion hnone
      exact ih (i + 1) (result ++ [x]) (by omega) ⟨j, by omega, hj, hnone⟩

/-- When every element from the entry index on is present, the loop appends them in
order to `result` and leaves the error slot as it was. -/
theorem scanLoop_present {α : Type} (length : Nat) (element : Nat → Option α)
    (message : String) (error : Error) (n : Nat) : ∀ (i : Nat) (result : List α),
    length - i = n → (∀ j, i ≤ j → j < length → element j ≠ none) →
    ∃ xs : List α, scanLoop length element message i result error
        = (some (result ++ xs), error) ∧
      xs.length = length - i ∧ ∀ k, k < length - i → xs[k]? = element (i + k) := by
  induction n with
  | zero =>
    intro i result h _
    have hi : ¬ i < length := by omega
    refine ⟨[], ?_, by simp; omega, fun k hk => by omega⟩
    rw [scanLoop]
    simp [hi]
  | succ n ih =>
    intro i result h hall
    have hi : i < length := by omega
    cases hx : element i with
    | none => exact absurd hx (hall i (Nat.le_refl i) hi)
    | some x =>
      obtain ⟨xs, hrun, hlen, hget⟩ :=
        ih (i + 1) (result ++ [x]) (by omega) (fun j hj => hall j (by omega))
      refine ⟨x :: xs, ?_, by simp [hlen]; omega, ?_⟩
      · rw [scanLoop]
        simp only [hi, if_true, hx]
        rw [hrun]
        simp
      · intro k hk
        cases k with
        | zero => simpa using hx.symm
        | succ k =>
          have := hget k (by omega)
          simpa [Nat.add_assoc, Nat.add_comm 1 k] using this

/-- The loop run from index `0` with an empty result: it fails with its message when an
element below `length` is absent, and otherwise returns the elements in order. -/
theorem scanLoop_spec {α : Type} (length : Nat) (element : Nat → Option α)
    (message : String) (error : Error) :
    ((∃ j, j < length ∧ element j = none) →
      scanLoop length element message 0 [] error = (none, ⟨message⟩)) ∧
    ((¬ ∃ j, j < length ∧ element j = none) →
      ∃ xs : List α, scanLoop length element message 0 [] error = (some xs, error) ∧
        xs.length = length ∧ ∀ k, k < length → xs[k]? = element k) := by
  constructor
  · rintro ⟨j, hj, hnone⟩
    exact scanLoop_absent length element message error length 0 [] rfl
      ⟨j, Nat.zero_le j, hj, hnone⟩
  · intro hno
    obtain ⟨xs, hrun, hlen, hget⟩ :=
      scanLoop_present length element message error length 0 [] rfl
        (fun j _ hj hnone => hno ⟨j, hj, hnone⟩)
    refine ⟨xs, by simpa using hrun, by simpa using hlen, fun k hk => ?_⟩
    simpa using hget k (by simpa using hk)

/-- C6: the sequence-of-numbers converter fails with "value must be an array" on a value
that is no array; on an array with a member below its length that is no number it fails
with "value must be an array of numbers"; on any other array it returns a list as long
as the array whose entry at every index is that member's number, leaving the error slot
as it was, and this list is empty for an empty array. -/
theorem Converter_vector_float_spec {V F : Type} (ops : ValueOps V F) (value : V)
    (error : Error) :
    (ops.isArray value = false →
      Converter_vector_float ops value error = (none, ⟨"value must be an array"⟩)) ∧
    (ops.isArray value = true →
      (∃ i, i < ops.arrayLength value ∧ ops.toNumber (ops.arrayMember value i) = none) →
      Converter_vector_float ops value error
        = (none, ⟨"value must be an array of numbers"⟩)) ∧
    (ops.isArray value = true →
      (¬ ∃ i, i < ops.arrayLength value ∧ ops.toNumber (ops.arrayMember value i) = none) →
      ∃ xs : List F, Converter_vector_float ops value error = (some xs, error) ∧
        xs.length = ops.arrayLength value ∧
        ∀ i, i < ops.arrayLength value →
          xs[i]? = ops.toNumber (ops.arrayMember value i)) ∧
    (ops.isArray value = true → ops.arrayLength value = 0 →
      Converter_vector_float ops value error = (some [], error)) := by
  have hloop := Converter_vector_float_loop_eq ops value error (ops.arrayLength value) 0 [] rfl
  have hscan := scanLoop_spec (ops.arrayLength value)
    (fun j => ops.toNumber (ops.arrayMember value j)) "value must be an array of numbers" error
  refine ⟨?_, ?_, ?_, ?_⟩
  · intro hArray
    simp [Converter_vector_float, hArray]
  · intro hArray hex
    simp only [Converter_vector_float, hArray, Bool.not_true, Bool.false_eq_true, if_false]
    rw [hloop]
    exact hscan.1 hex
  · intro hArray hno
    simp only [Converter_vector_float, hArray, Bool.not_true, Bool.false_eq_true, if_false]
    rw [hloop]
    exact hscan.2 hno
  · intro hArray hLength
    simp only [Converter_vector_float, hArray, Bool.not_true, Bool.false_eq_true, if_false]
    rw [Converter_vector_float_loop]
    simp [hLength]

theorem Converter_vector_float_spec_witness :
    Converter_vector_float jsOps (.string "a") noError
      = (none, ⟨"value must be an array"⟩) ∧
    Converter_vector_float jsOps (.array [.number 1, .string "x", .number 3]) noError
      = (none, ⟨"value must be an array of numbers"⟩) ∧
    (∃ xs : List Int,
      Converter_vector_float jsOps (.array [.number 1, .number 2]) noError
        = (some xs, noError) ∧
      xs.length = 2 ∧
      ∀ i, i < 2 → xs[i]? = jsOps.toNumber
        (jsOps.arrayMember (.array [.number 1, .number 2]) i)) ∧
    Converter_vector_float jsOps (.array []) noError = (some [], noError) :=
  ⟨(Converter_vector_float_spec jsOps (.string "a") noError).1 rfl,
    (Converter_vector_float_spec jsOps
      (.array [.number 1, .string "x", .number 3]) noError).2.1 rfl
      ⟨1, by decide, rfl⟩,
    (Converter_vector_float_spec jsOps (.array [.number 1, .number 2]) noError).2.2.1 rfl
      (by
        rintro ⟨i, hi, hnone⟩
        have hi2 : i < 2 := hi
        interval_cases i <;> exact Option.noConfusion hnone),
    (Converter_vector_float_spec jsOps (.array []) noError).2.2.2 rfl rfl⟩

/-- C7: on an array the sequence-of-strings converter returns a value exactly when every
member below the array's length is a string; the value it returns is a list as long as
the array whose entry at every index is that member's string, with the error slot left
as it was; and when it returns no value the error is "value must be an array of strings",
whichever member is at fault. -/
theorem Converter_vector_string_spec {V F : Type} (ops : ValueOps V F) (value : V)
    (error : Error) (hArray : ops.isArray value = true) :
    ((Converter_vector_string ops value error).1.isSome = true ↔
      ∀ i, i < ops.arrayLength value →
        (ops.toString (ops.arrayMember value i)).isSome = true) ∧
    (∀ xs, (Converter_vector_string ops value error).1 = some xs →
      Converter_vector_string ops value error = (some xs, error) ∧
      xs.length = ops.arrayLength value ∧
      ∀ i, i < ops.arrayLength value →
        xs[i]? = ops.toString (ops.arrayMember value i)) ∧
    ((Converter_vector_string ops value error).1 = none →
      Converter_vector_string ops value error
        = (none, ⟨"value must be an array of strings"⟩)) := by
  have hloop := Converter_vector_string_loop_eq ops value error (ops.arrayLength value) 0 [] rfl
  have hscan := scanLoop_spec (ops.arrayLength value)
    (fun j => ops.toString (ops.arrayMember value j)) "value must be an array of strings" error
  have hrun : Converter_vector_string ops value error
      = scanLoop (ops.arrayLength value) (fun j => ops.toString (ops.arrayMember value j))
          "value must be an array of strings" 0 [] error := by
    simp only [Converter_vector_string, hArray, Bool.not_true, Bool.false_eq_true, if_false]
    exact hloop
  rw [hrun]
  by_cases hex : ∃ j, j < ops.arrayLength value ∧ ops.toString (ops.arrayMember value j) = none
  · rw [hscan.1 hex]
    obtain ⟨j, hj, hnone⟩ := hex
    refine ⟨⟨fun h => by simp at h, fun h => ?_⟩, fun xs h => by simp at h, fun _ => rfl⟩
    have := h j hj
    rw [hnone] at this
    simp at this
  · obtain ⟨xs, hxs, hlen, hget⟩ := hscan.2 hex
    rw [hxs]
    refine ⟨⟨fun _ i hi => ?_, fun _ => rfl⟩, fun ys h => ?_, fun h => by simp at h⟩
    · cases hs : ops.toString (ops.arrayMember value i) with
      | none => exact absurd ⟨i, hi, hs⟩ hex
      | some s => rfl
    · have hys : xs = ys := by simpa using h
      subst hys
      exact ⟨rfl, hlen, hget⟩

theorem Converter_vector_string_spec_witness :
    jsOps.isArray (.array [.string "a", .number 1, .string "c"]) = true ∧
    Converter_vector_string jsOps (.array [.string "a", .number 1, .string "c"]) noError
      = (none, ⟨"value must be an array of strings"⟩) ∧
    Converter_vector_string jsOps (.array [.string "a", .string "b", .string "c"]) noError
      = (some ["a", "b", "c"], noError) :=
  ⟨rfl,
    (Converter_vector_string_spec jsOps (.array [.string "a", .number 1, .string "c"])
      noError rfl).2.2
      (by simp [Converter_vector_string, Converter_vector_string_loop, jsOps]),
    ((Converter_vector_string_spec jsOps (.array [.string "a", .string "b", .string "c"])
      noError rfl).2.1 ["a", "b", "c"]
      (by simp [Converter_vector_string, Converter_vector_string_loop, jsOps])).1⟩

/-! ## Derived converters: properties -/

/-- C8: the enumeration converter fails with "value must be a string", the error of the
string converter on the same value, when the value has no string; fails with
"value must be a valid enumeration value" when the value's string is not in the table;
returns the table's constant, leaving the error slot as it was, when it is; and it is the
string converter followed by the table lookup. -/
theorem Converter_enum_spec {V F T : Type} (ops : ValueOps V F) (toEnum : String → Option T)
    (value : V) (error : Error) :
    (ops.toString value = none →
      Converter_enum ops toEnum value error = (none, ⟨"value must be a string"⟩) ∧
      Converter_enum ops toEnum value error
        = (none, (Converter_string ops value error).2)) ∧
    (∀ s, ops.toString value = some s → toEnum s = none →
      Converter_enum ops toEnum value error
        = (none, ⟨"value must be a valid enumeration value"⟩)) ∧
    (∀ s c, ops.toString value = some s → toEnum s = some c →
      Converter_enum ops toEnum value error = (some c, error)) ∧
    Converter_enum ops toEnum value error
      = enumViaStringConverter ops toEnum value error := by
  cases hs : ops.toString value with
  | none => simp [Converter_enum, enumViaStringConverter, Converter_string, hs]
  | some s =>
    cases hc : toEnum s with
    | none =>
      simp only [Converter_enum, enumViaStringConverter, Converter_string, hs, hc]
      refine ⟨fun h => Option.noConfusion h, fun t ht _ => trivial, fun t c ht hc2 => ?_, trivial⟩
      cases ht
      rw [hc] at hc2
      exact Option.noConfusion hc2
    | some c =>
      simp only [Converter_enum, enumViaStringConverter, Converter_string, hs, hc]
      refine ⟨fun h => Option.noConfusion h, fun t ht ht2 => ?_, fun t d ht hd => ?_, trivial⟩
      · cases ht
        rw [hc] at ht2
        exact Option.noConfusion ht2
      · cases ht
        rw [hc] at hd
        cases hd
        rfl

theorem Converter_enum_spec_witness :
    Converter_enum jsOps LineCapType.toEnum (.number 3) noError
      = (none, ⟨"value must be a string"⟩) ∧
    Converter_enum jsOps LineCapType.toEnum (.string "Round") noError
      = (none, ⟨"value must be a valid enumeration value"⟩) ∧
    Converter_enum jsOps LineCapType.toEnum (.string "butt") noError
      = (some .Butt, noError) :=
  ⟨((Converter_enum_spec jsOps LineCapType.toEnum (.number 3) noError).1 rfl).1,
    (Converter_enum_spec jsOps LineCapType.toEnum (.string "Round") noError).2.1
      "Round" rfl (by decide),
    (Converter_enum_spec jsOps LineCapType.toEnum (.string "butt") noError).2.2.1
      "butt" .Butt rfl (by decide)⟩

/-- C9: when the lookup inverts the naming of the constants, the enumeration converter
returns the constant `c` on every value whose string is the name of `c`. -/
theorem Converter_enum_round_trip {V F T : Type} (ops : ValueOps V F)
    (toEnum : String → Option T) (name : T → String)
    (hTable : ∀ c, toEnum (name c) = some c) (c : T) (value : V) (error : Error)
    (hString : ops.toString value = some (name c)) :
    Converter_enum ops toEnum value error = (some c, error) := by
  simp [Converter_enum, hString, hTable c]

theorem Converter_enum_round_trip_witness :
    (∀ c, LineCapType.toEnum (LineCapType.name c) = some c) ∧
    jsOps.toString (.string "square") = some (LineCapType.name .Square) ∧
    Converter_enum jsOps LineCapType.toEnum (.string "square") noError
      = (some .Square, noError) :=
  ⟨fun c => by cases c <;> decide, rfl,
    Converter_enum_round_trip jsOps LineCapType.toEnum LineCapType.name
      (fun c => by cases c <;> decide) .Square (.string "square") noError rfl⟩

/-- C10: the colour converter fails with "value must be a string", and not with
"value must be a valid color", when the value has no string; fails with
"value must be a valid color", and not with the string error, when the parser rejects the
value's string; and returns the parser's colour, leaving the error slot as it was, when
the parser accepts it. -/
theorem Converter_Color_spec {V F C : Type} (ops : ValueOps V F) (parse : String → Option C)
    (value : V) (error : Error) :
    (ops.toString value = none →
      Converter_Color ops parse value error = (none, ⟨"value must be a string"⟩) ∧
      (Converter_Color ops parse value error).2 ≠ ⟨"value must be a valid color"⟩) ∧
    (∀ s, ops.toString value = some s → parse s = none →
      Converter_Color ops parse value error = (none, ⟨"value must be a valid color"⟩) ∧
      (Converter_Color ops parse value error).2 ≠ ⟨"value must be a string"⟩) ∧
    (∀ s c, ops.toString value = some s → parse s = some c →
      Converter_Color ops parse value error = (some c, error)) := by
  cases hs : ops.toString value with
  | none => simp [Converter_Color, hs]
  | some s =>
    cases hc : parse s with
    | none =>
      simp only [Converter_Color, hs, hc]
      refine ⟨fun h => Option.noConfusion h, fun t ht _ => by simp,
        fun t c ht hc2 => ?_⟩
      cases ht
      rw [hc] at hc2
      exact Option.noConfusion hc2
    | some c =>
      simp only [Converter_Color, hs, hc]
      refine ⟨fun h => Option.noConfusion h, fun t ht ht2 => ?_, fun t d ht hd => ?_⟩
      · cases ht
        rw [hc] at ht2
        exact Option.noConfusion ht2
      · cases ht
        rw [hc] at hd
        cases hd
        rfl

theorem Converter_Color_spec_witness :
    Converter_Color jsOps parseRedOnly (.number 42) noError
      = (none, ⟨"value must be a string"⟩) ∧
    Converter_Color jsOps parseRedOnly (.string "red") noError
      = (none, ⟨"value must be a valid color"⟩) ∧
    Converter_Color jsOps parseRedOnly (.string "#ff0000") noError
      = (some Rgba.red, noError) :=
  ⟨((Converter_Color_spec jsOps parseRedOnly (.number 42) noError).1 rfl).1,
    ((Converter_Color_spec jsOps parseRedOnly (.string "red") noError).2.1
      "red" rfl (by decide)).1,
    (Converter_Color_spec jsOps parseRedOnly (.string "#ff0000") noError).2.2
      "#ff0000" Rgba.red rfl (by decide)⟩

/-! ## Primitive converters: properties -/

/-- C11: the bool converter returns a value exactly when `toBool` is present; it then
returns that boolean, leaving the error slot as it was; and when `toBool` is absent it
fails with "value must be a boolean". -/
theorem Converter_bool_spec {V F : Type} (ops : ValueOps V F) (value : V) (error : Error) :
    ((Converter_bool ops value error).1.isSome = true ↔
      (ops.toBool value).isSome = true) ∧
    (∀ b, ops.toBool value = some b → Converter_bool ops value error = (some b, error)) ∧
    (ops.toBool value = none →
      Converter_bool ops value error = (none, ⟨"value must be a boolean"⟩)) := by
  cases h : ops.toBool value <;> simp [Converter_bool, h]

theorem Converter_bool_spec_witness :
    Converter_bool jsOps (.bool true) noError = (some true, noError) ∧
    Converter_bool jsOps (.string "true") noError
      = (none, ⟨"value must be a boolean"⟩) :=
  ⟨(Converter_bool_spec jsOps (.bool true) noError).2.1 true rfl,
    (Converter_bool_spec jsOps (.string "true") noError).2.2 rfl⟩

theorem Converter_float_eq_from {V F : Type} (ops : ValueOps V F) (value : V)
    (error : Error) :
    Converter_float ops value error = Converter_float_from ops.toNumber id value error := by
  cases h : ops.toNumber value <;> simp [Converter_float, Converter_float_from, h]

/-- An integer below `2 ^ 24` in magnitude is a float: the conversion keeps it. -/
theorem doubleToFloat_of_small (n : Int) (h : n.natAbs < 2 ^ 24) : doubleToFloat n = n := by
  have hf : (List.range 30).find? (fun s => n.natAbs / 2 ^ s < 2 ^ 24) = some 0 := by
    have hr : List.range 30 = 0 :: (List.range 29).map (· + 1) := by decide
    rw [hr, List.find?_cons_of_pos]
    simpa using h
  unfold doubleToFloat
  simp only [hf]
  simp [Nat.mod_one, Int.sign_mul_abs]

/-- C13: the string converter returns a value exactly when `toString` is present; it then
returns that string, leaving the error slot as it was; and when `toString` is absent it
fails with "value must be a string". -/
theorem Converter_string_spec {V F : Type} (ops : ValueOps V F) (value : V) (error : Error) :
    ((Converter_string ops value error).1.isSome = true ↔
      (ops.toString value).isSome = true) ∧
    (∀ s, ops.toString value = some s →
      Converter_string ops value error = (some s, error)) ∧
    (ops.toString value = none →
      Converter_string ops value error = (none, ⟨"value must be a string"⟩)) := by
  cases h : ops.toString value <;> simp [Converter_string, h]

theorem Converter_string_spec_witness :
    Converter_string jsOps (.string "butt") noError = (some "butt", noError) ∧
    Converter_string jsOps (.number 7) noError
      = (none, ⟨"value must be a string"⟩) :=
  ⟨(Converter_string_spec jsOps (.string "butt") noError).2.1 "butt" rfl,
    (Converter_string_spec jsOps (.number 7) noError).2.2 rfl⟩

/-! ## Sequence converters on a value that is no array -/

/-- C15: on a value that is no array both sequence converters fail with
"value must be an array", and two implementations of the accessors that both answer
`isArray` with `false` on the value give the same result, however else they differ
(in `arrayLength` and `arrayMember` in particular). -/
theorem Converter_vector_not_array {V F : Type} (ops ops2 : ValueOps V F) (value : V)
    (error : Error) (hArray : ops.isArray value = false)
    (hArray2 : ops2.isArray value = false) :
    Converter_vector_string ops value error = (none, ⟨"value must be an array"⟩) ∧
    Converter_vector_string ops value error = Converter_vector_string ops2 value error ∧
    Converter_vector_float ops value error = (none, ⟨"value must be an array"⟩) ∧
    Converter_vector_float ops value error = Converter_vector_float ops2 value error := by
  simp [Converter_vector_string, Converter_vector_float, hArray, hArray2]

theorem Converter_vector_not_array_witness :
    jsOps.isArray (.number 5) = false ∧ jsOpsUnguarded.isArray (.number 5) = false ∧
    jsOps.arrayLength (.number 5) ≠ jsOpsUnguarded.arrayLength (.number 5) ∧
    Converter_vector_string jsOps (.number 5) noError
      = (none, ⟨"value must be an array"⟩) ∧
    Converter_vector_string jsOps (.number 5) noError
      = Converter_vector_string jsOpsUnguarded (.number 5) noError ∧
    Converter_vector_float jsOps (.number 5) noError
      = (none, ⟨"value must be an array"⟩) ∧
    Converter_vector_float jsOps (.number 5) noError
      = Converter_vector_float jsOpsUnguarded (.number 5) noError :=
  ⟨rfl, rfl, by decide,
    Converter_vector_not_array jsOps jsOpsUnguarded (.number 5) noError rfl rfl⟩

/-! ## The error slot on successful calls -/

theorem Converter_vector_float_eq_scanLoop {V F : Type} (ops : ValueOps V F) (value : V)
    (error : Error) (hArray : ops.isArray value = true) :
    Converter_vector_float ops value error
      = scanLoop (ops.arrayLength value) (fun j => ops.toNumber (ops.arrayMember value j))
          "value must be an array of numbers" 0 [] error := by
  simp only [Converter_vector_float, hArray, Bool.not_true, Bool.false_eq_true, if_false]
  exact Converter_vector_float_loop_eq ops value error (ops.arrayLength value) 0 [] rfl

theorem Converter_vector_string_eq_scanLoop {V F : Type} (ops : ValueOps V F) (value : V)
    (error : Error) (hArray : ops.isArray value = true) :
    Converter_vector_string ops value error
      = scanLoop (ops.arrayLength value) (fun j => ops.toString (ops.arrayMember value j))
          "value must be an array of strings" 0 [] error := by
  simp only [Converter_vector_string, hArray, Bool.not_true, Bool.false_eq_true, if_false]
  exact Converter_vector_string_loop_eq ops value error (ops.arrayLength value) 0 [] rfl

/-- The two ways the loop ends: with no value and its message in the error slot, or with
the elements in order and the error slot as it was. -/
theorem scanLoop_outcome {α : Type} (length : Nat) (element : Nat → Option α)
    (message : String) (error : Error) :
    ((∃ j, j < length ∧ element j = none) ∧
      scanLoop length element message 0 [] error = (none, ⟨message⟩)) ∨
    ∃ xs : List α, scanLoop length element message 0 [] error = (some xs, error) ∧
      xs.length = length ∧ ∀ k, k < length → xs[k]? = element k := by
  by_cases h : ∃ j, j < length ∧ element j = none
  · exact .inl ⟨h, (scanLoop_spec length element message error).1 h⟩
  · exact .inr ((scanLoop_spec length element message error).2 h)

/-- C17: each of the nine converters that take the error slot leaves it as it was on
every call that returns a value, whatever the slot held before. -/
theorem Converter_success_keeps_error {V F T C : Type} (ops : ValueOps V F)
    (toEnum : String → Option T) (parse : String → Option C)
    (thirdStorage fourthStorage : F) (value : V) (error : Error) :
    ((Converter_bool ops value error).1.isSome = true →
      (Converter_bool ops value error).2 = error) ∧
    ((Converter_float ops value error).1.isSome = true →
      (Converter_float ops value error).2 = error) ∧
    ((Converter_string ops value error).1.isSome = true →
      (Converter_string ops value error).2 = error) ∧
    ((Converter_enum ops toEnum value error).1.isSome = true →
      (Converter_enum ops toEnum value error).2 = error) ∧
    ((Converter_Color ops parse value error).1.isSome = true →
      (Converter_Color ops parse value error).2 = error) ∧
    ((Converter_array2 ops value error).1.isSome = true →
      (Converter_array2 ops value error).2 = error) ∧
    ((Converter_array4 ops thirdStorage fourthStorage value error).1.isSome = true →
      (Converter_array4 ops thirdStorage fourthStorage value error).2 = error) ∧
    ((Converter_vector_float ops value error).1.isSome = true →
      (Converter_vector_float ops value error).2 = error) ∧
    ((Converter_vector_string ops value error).1.isSome = true →
      (Converter_vector_string ops value error).2 = error) := by
  refine ⟨?_, ?_, ?_, ?_, ?_, ?_, ?_, ?_, ?_⟩
  · cases h : ops.toBool value <;> simp [Converter_bool, h]
  · cases h : ops.toNumber value <;> simp [Converter_float, h]
  · cases h : ops.toString value <;> simp [Converter_string, h]
  · cases h : ops.toString value with
    | none => simp [Converter_enum, h]
    | some s => cases hc : toEnum s <;> simp [Converter_enum, h, hc]
  · cases h : ops.toString value with
    | none => simp [Converter_Color, h]
    | some s => cases hc : parse s <;> simp [Converter_Color, h, hc]
  · by_cases hc : (!ops.isArray value || ops.arrayLength value != 2) = true
    · simp [Converter_array2, hc]
    · cases h0 : ops.toNumber (ops.arrayMember value 0) <;>
        cases h1 : ops.toNumber (ops.arrayMember value 1) <;>
        simp [Converter_array2, hc, h0, h1]
  · by_cases hc : (!ops.isArray value || ops.arrayLength value != 4) = true
    · simp [Converter_array4, hc]
    · cases h0 : ops.toNumber (ops.arrayMember value 0) <;>
        cases h1 : ops.toNumber (ops.arrayMember value 1) <;>
        simp [Converter_array4, hc, h0, h1]
  · cases hArray : ops.isArray value with
    | false => simp [Converter_vector_float, hArray]
    | true =>
      rw [Converter_vector_float_eq_scanLoop ops value error hArray]
      rcases scanLoop_outcome (ops.arrayLength value)
        (fun j => ops.toNumber (ops.arrayMember value j))
        "value must be an array of numbers" error with ⟨-, h⟩ | ⟨xs, h, -, -⟩
      · rw [h]
        simp
      · rw [h]
        simp
  · cases hArray : ops.isArray value with
    | false => simp [Converter_vector_string, hArray]
    | true =>
      rw [Converter_vector_string_eq_scanLoop ops value error hArray]
      rcases scanLoop_outcome (ops.arrayLength value)
        (fun j => ops.toString (ops.arrayMember value j))
        "value must be an array of strings" error with ⟨-, h⟩ | ⟨xs, h, -, -⟩
      · rw [h]
        simp
      · rw [h]
        simp

theorem Converter_success_keeps_error_witness :
    (Converter_vector_string jsOps (.array [.string "a", .string "b"])
      ⟨"an earlier error"⟩).1 = some ["a", "b"] ∧
    (Converter_vector_string jsOps (.array [.string "a", .string "b"])
      ⟨"an earlier error"⟩).2 = ⟨"an earlier error"⟩ ∧
    (Converter_array4 jsOps 0 0 (.array [.number 1, .number 2, .number 3, .number 4])
      ⟨"an earlier error"⟩).2 = ⟨"an earlier error"⟩ :=
  ⟨by simp [Converter_vector_string, Converter_vector_string_loop, jsOps],
    (Converter_success_keeps_error jsOps LineCapType.toEnum parseRedOnly 0 0
      (.array [.string "a", .string "b"]) ⟨"an earlier error"⟩).2.2.2.2.2.2.2.2
      (by simp [Converter_vector_string, Converter_vector_string_loop, jsOps]),
    (Converter_success_keeps_error jsOps LineCapType.toEnum parseRedOnly 0 0
      (.array [.number 1, .number 2, .number 3, .number 4])
      ⟨"an earlier error"⟩).2.2.2.2.2.2.1 rfl⟩

/-! ## Fixed-arity and sequence converters together -/

/-- What a successful run of the sequence-of-numbers converter says about the value. -/
theorem Converter_vector_float_success {V F : Type} (ops : ValueOps V F) (value : V)
    (error : Error) (xs : List F)
    (h : (Converter_vector_float ops value error).1 = some xs) :
    ops.isArray value = true ∧ xs.length = ops.arrayLength value ∧
    ∀ i, i < ops.arrayLength value → ops.toNumber (ops.arrayMember value i) = xs[i]? := by
  cases hArray : ops.isArray value with
  | false => simp [Converter_vector_float, hArray] at h
  | true =>
    rw [Converter_vector_float_eq_scanLoop ops value error hArray] at h
    rcases scanLoop_outcome (ops.arrayLength value)
      (fun j => ops.toNumber (ops.arrayMember value j))
      "value must be an array of numbers" error with ⟨-, hrun⟩ | ⟨ys, hrun, hlen, hget⟩
    · rw [hrun] at h
      exact Option.noConfusion h
    · rw [hrun] at h
      have hys : ys = xs := by simpa using h
      subst hys
      exact ⟨rfl, hlen, fun i hi => (hget i hi).symm⟩

/-- The sequence-of-numbers converter returns `xs` on an array whose members are, index
by index, the numbers of `xs`. -/
theorem Converter_vector_float_of_members {V F : Type} (ops : ValueOps V F) (value : V)
    (error : Error) (xs : List F) (hArray : ops.isArray value = true)
    (hLength : xs.length = ops.arrayLength value)
    (hGet : ∀ i, i < ops.arrayLength value →
      ops.toNumber (ops.arrayMember value i) = xs[i]?) :
    Converter_vector_float ops value error = (some xs, error) := by
  rw [Converter_vector_float_eq_scanLoop ops value error hArray]
  rcases scanLoop_outcome (ops.arrayLength value)
    (fun j => ops.toNumber (ops.arrayMember value j))
    "value must be an array of numbers" error with ⟨⟨j, hj, hnone⟩, -⟩ | ⟨ys, hrun, hlen, hget⟩
  · have hx := hGet j hj
    rw [hnone] at hx
    have hlt : j < xs.length := by omega
    rw [List.getElem?_eq_getElem hlt] at hx
    exact Option.noConfusion hx
  · rw [hrun]
    have hys : ys = xs := by
      apply List.ext_getElem?
      intro n
      by_cases hn : n < ops.arrayLength value
      · rw [hget n hn]
        exact hGet n hn
      · rw [List.getElem?_eq_none (by omega), List.getElem?_eq_none (by omega)]
    rw [hys]

/-- What a successful run of the length-2 converter says about the value. -/
theorem Converter_array2_success {V F : Type} (ops : ValueOps V F) (value : V)
    (error : Error) (a b : F) (h : (Converter_array2 ops value error).1 = some (a, b)) :
    ops.isArray value = true ∧ ops.arrayLength value = 2 ∧
    ops.toNumber (ops.arrayMember value 0) = some a ∧
    ops.toNumber (ops.arrayMember value 1) = some b := by
  by_cases hArray : ops.isArray value = true
  · by_cases hLength : ops.arrayLength value = 2
    · cases h0 : ops.toNumber (ops.arrayMember value 0) <;>
        cases h1 : ops.toNumber (ops.arrayMember value 1) <;>
        simp_all [Converter_array2]
    · simp [Converter_array2, hArray, hLength] at h
  · simp [Converter_array2, hArray] at h

/-- What a successful run of the length-3 converter says about the value. -/
theorem Converter_array3_success {V F : Type} (ops : ValueOps V F) (value : V)
    (a b c : F) (h : Converter_array3 ops value = .ok (a, b, c)) :
    ops.isArray value = true ∧ ops.arrayLength value = 3 ∧
    ops.toNumber (ops.arrayMember value 0) = some a ∧
    ops.toNumber (ops.arrayMember value 1) = some b ∧
    ops.toNumber (ops.arrayMember value 2) = some c := by
  by_cases hArray : ops.isArray value = true
  · by_cases hLength : ops.arrayLength value = 3
    · cases h0 : ops.toNumber (ops.arrayMember value 0) <;>
        cases h1 : ops.toNumber (ops.arrayMember value 1) <;>
        cases h2 : ops.toNumber (ops.arrayMember value 2) <;>
        simp_all [Converter_array3]
    · simp [Converter_array3, hArray, hLength] at h
  · simp [Converter_array3, hArray] at h

/-- C18: when the length-2 converter returns `(a, b)` the sequence-of-numbers converter
returns `[a, b]`, and when the length-3 converter returns `(a, b, c)` it returns
`[a, b, c]`; conversely, when the sequence-of-numbers converter returns a list of length
2 (of length 3), the length-2 (length-3) converter returns the same numbers in the same
order. -/
theorem Converter_array_agrees_with_vector {V F : Type} (ops : ValueOps V F) (value : V)
    (error : Error) :
    (∀ a b, (Converter_array2 ops value error).1 = some (a, b) →
      Converter_vector_float ops value error = (some [a, b], error)) ∧
    (∀ a b c, Converter_array3 ops value = .ok (a, b, c) →
      Converter_vector_float ops value error = (some [a, b, c], error)) ∧
    (∀ xs, (Converter_vector_float ops value error).1 = some xs → xs.length = 2 →
      ∃ a b, xs = [a, b] ∧ Converter_array2 ops value error = (some (a, b), error)) ∧
    (∀ xs, (Converter_vector_float ops value error).1 = some xs → xs.length = 3 →
      ∃ a b c, xs = [a, b, c] ∧ Converter_array3 ops value = .ok (a, b, c)) := by
  refine ⟨fun a b h => ?_, fun a b c h => ?_, fun xs h hlen => ?_, fun xs h hlen => ?_⟩
  · obtain ⟨hArray, hLength, h0, h1⟩ := Converter_array2_success ops value error a b h
    refine Converter_vector_float_of_members ops value error [a, b] hArray
      (by simp [hLength]) (fun i hi => ?_)
    rw [hLength] at hi
    interval_cases i
    · simpa using h0
    · simpa using h1
  · obtain ⟨hArray, hLength, h0, h1, h2⟩ := Converter_array3_success ops value a b c h
    refine Converter_vector_float_of_members ops value error [a, b, c] hArray
      (by simp [hLength]) (fun i hi => ?_)
    rw [hLength] at hi
    interval_cases i
    · simpa using h0
    · simpa using h1
    · simpa using h2
  · obtain ⟨hArray, hLength, hGet⟩ := Converter_vector_float_success ops value error xs h
    match xs, hlen with
    | [a, b], _ =>
      refine ⟨a, b, rfl, ?_⟩
      have hL : ops.arrayLength value = 2 := by simpa using hLength.symm
      have h0 := hGet 0 (by omega)
      have h1 := hGet 1 (by omega)
      simp at h0 h1
      simp [Converter_array2, hArray, hL, h0, h1]
  · obtain ⟨hArray, hLength, hGet⟩ := Converter_vector_float_success ops value error xs h
    match xs, hlen with
    | [a, b, c], _ =>
      refine ⟨a, b, c, rfl, ?_⟩
      have hL : ops.arrayLength value = 3 := by simpa using hLength.symm
      have h0 := hGet 0 (by omega)
      have h1 := hGet 1 (by omega)
      have h2 := hGet 2 (by omega)
      simp at h0 h1 h2
      simp [Converter_array3, hArray, hL, h0, h1, h2]

theorem Converter_array_agrees_with_vector_witness :
    Converter_array2 jsOps (.array [.number 3, .number 5]) noError
      = (some (3, 5), noError) ∧
    Converter_vector_float jsOps (.array [.number 3, .number 5]) noError
      = (some [3, 5], noError) ∧
    Converter_array3 jsOps (.array [.number 3, .number 5, .number 8]) = .ok (3, 5, 8) ∧
    Converter_vector_float jsOps (.array [.number 3, .number 5, .number 8]) noError
      = (some [3, 5, 8], noError) ∧
    (∃ a b, [(3 : Int), 5] = [a, b] ∧
      Converter_array2 jsOps (.array [.number 3, .number 5]) noError
        = (some (a, b), noError)) ∧
    (∃ a b c, [(3 : Int), 5, 8] = [a, b, c] ∧
      Converter_array3 jsOps (.array [.number 3, .number 5, .number 8])
        = .ok (a, b, c)) :=
  ⟨rfl,
    (Converter_array_agrees_with_vector jsOps (.array [.number 3, .number 5]) noError).1
      3 5 rfl,
    rfl,
    (Converter_array_agrees_with_vector jsOps
      (.array [.number 3, .number 5, .number 8]) noError).2.1 3 5 8 rfl,
    (Converter_array_agrees_with_vector jsOps (.array [.number 3, .number 5]) noError).2.2.1
      [3, 5] (by simp [Converter_vector_float, Converter_vector_float_loop, jsOps]) rfl,
    (Converter_array_agrees_with_vector jsOps
      (.array [.number 3, .number 5, .number 8]) noError).2.2.2
      [3, 5, 8] (by simp [Converter_vector_float, Converter_vector_float_loop, jsOps]) rfl⟩

/-! ## Value or error, and one assignment at most -/

theorem sameCall_valueOrError {T : Type} (error : Error) (t : Option T × List Error)
    (p : Option T × Error) (h : sameCall error t p) :
    valueOrError t ∧ p = (t.1, slotAfter error t.2) := by
  rcases h with ⟨x, ht, hp⟩ | ⟨m, ht, hp⟩ <;>
    simp [valueOrError, slotAfter, ht, hp]

theorem Converter_vector_float_loop_sameCall {V F : Type} (ops : ValueOps V F) (value : V)
    (error : Error) (n : Nat) : ∀ (i : Nat) (result : List F),
    ops.arrayLength value - i = n →
    sameCall error (Converter_vector_float_loop_traced ops value i result)
      (Converter_vector_float_loop ops value i result error) := by
  induction n with
  | zero =>
    intro i result h
    have hi : ¬ i < ops.arrayLength value := by omega
    rw [Converter_vector_float_loop_traced, Converter_vector_float_loop]
    simp [hi, sameCall]
  | succ n ih =>
    intro i result h
    have hi : i < ops.arrayLength value := by omega
    rw [Converter_vector_float_loop_traced, Converter_vector_float_loop]
    simp only [hi, if_true]
    cases ops.toNumber (ops.arrayMember value i) with
    | none => exact .inr ⟨_, rfl, rfl⟩
    | some x => exact ih (i + 1) (result ++ [x]) (by omega)

theorem Converter_vector_string_loop_sameCall {V F : Type} (ops : ValueOps V F) (value : V)
    (error : Error) (n : Nat) : ∀ (i : Nat) (result : List String),
    ops.arrayLength value - i = n →
    sameCall error (Converter_vector_string_loop_traced ops value i result)
      (Converter_vector_string_loop ops value i result error) := by
  induction n with
  | zero =>
    intro i result h
    have hi : ¬ i < ops.arrayLength value := by omega
    rw [Converter_vector_string_loop_traced, Converter_vector_string_loop]
    simp [hi, sameCall]
  | succ n ih =>
    intro i result h
    have hi : i < ops.arrayLength value := by omega
    rw [Converter_vector_string_loop_traced, Converter_vector_string_loop]
    simp only [hi, if_true]
    cases ops.toString (ops.arrayMember value i) with
    | none => exact .inr ⟨_, rfl, rfl⟩
    | some x => exact ih (i + 1) (result ++ [x]) (by omega)

/-- Each recorded converter and its state-passing form tell the same call. -/
theorem Converter_sameCall {V F T C : Type} (ops : ValueOps V F)
    (toEnum : String → Option T) (parse : String → Option C)
    (thirdStorage fourthStorage : F) (value : V) (error : Error) :
    sameCall error (Converter_bool_traced ops value) (Converter_bool ops value error) ∧
    sameCall error (Converter_float_traced ops value) (Converter_float ops value error) ∧
    sameCall error (Converter_string_traced ops value)
      (Converter_string ops value error) ∧
    sameCall error (Converter_enum_traced ops toEnum value)
      (Converter_enum ops toEnum value error) ∧
    sameCall error (Converter_Color_traced ops parse value)
      (Converter_Color ops parse value error) ∧
    sameCall error (Converter_array2_traced ops value)
      (Converter_array2 ops value error) ∧
    sameCall error (Converter_array4_traced ops thirdStorage fourthStorage value)
      (Converter_array4 ops thirdStorage fourthStorage value error) ∧
    sameCall error (Converter_vector_float_traced ops value)
      (Converter_vector_float ops value error) ∧
    sameCall error (Converter_vector_string_traced ops value)
      (Converter_vector_string ops value error) := by
  refine ⟨?_, ?_, ?_, ?_, ?_, ?_, ?_, ?_, ?_⟩
  · cases h : ops.toBool value <;> simp [Converter_bool_traced, Converter_bool, sameCall, h]
  · cases h : ops.toNumber value <;>
      simp [Converter_float_traced, Converter_float, sameCall, h]
  · cases h : ops.toString value <;>
      simp [Converter_string_traced, Converter_string, sameCall, h]
  · cases h : ops.toString value with
    | none => simp [Converter_enum_traced, Converter_enum, sameCall, h]
    | some s =>
      cases hc : toEnum s <;> simp [Converter_enum_traced, Converter_enum, sameCall, h, hc]
  · cases h : ops.toString value with
    | none => simp [Converter_Color_traced, Converter_Color, sameCall, h]
    | some s =>
      cases hc : parse s <;> simp [Converter_Color_traced, Converter_Color, sameCall, h, hc]
  · by_cases hc : (!ops.isArray value || ops.arrayLength value != 2) = true
    · simp [Converter_array2_traced, Converter_array2, sameCall, hc]
    · cases h0 : ops.toNumber (ops.arrayMember value 0) <;>
        cases h1 : ops.toNumber (ops.arrayMember value 1) <;>
        simp [Converter_array2_traced, Converter_array2, sameCall, hc, h0, h1]
  · by_cases hc : (!ops.isArray value || ops.arrayLength value != 4) = true
    · simp [Converter_array4_traced, Converter_array4, sameCall, hc]
    · cases h0 : ops.toNumber (ops.arrayMember value 0) <;>
        cases h1 : ops.toNumber (ops.arrayMember value 1) <;>
        simp [Converter_array4_traced, Converter_array4, sameCall, hc, h0, h1]
  · cases hArray : ops.isArray value with
    | false => simp [Converter_vector_float_traced, Converter_vector_float, sameCall, hArray]
    | true =>
      simp only [Converter_vector_float_traced, Converter_vector_float, hArray,
        Bool.not_true, Bool.false_eq_true, if_false]
      exact Converter_vector_float_loop_sameCall ops value error _ 0 [] rfl
  · cases hArray : ops.isArray value with
    | false =>
      simp [Converter_vector_string_traced, Converter_vector_string, sameCall, hArray]
    | true =>
      simp only [Converter_vector_string_traced, Converter_vector_string, hArray,
        Bool.not_true, Bool.false_eq_true, if_false]
      exact Converter_vector_string_loop_sameCall ops value error _ 0 [] rfl

/-- The state-passing converters are the recorded ones with the recorded assignments
replayed on the slot. -/
theorem Converter_traced_agrees {V F T C : Type} (ops : ValueOps V F)
    (toEnum : String → Option T) (parse : String → Option C)
    (thirdStorage fourthStorage : F) (value : V) (error : Error) :
    Converter_bool ops value error
      = ((Converter_bool_traced ops value).1,
          slotAfter error (Converter_bool_traced ops value).2) ∧
    Converter_float ops value error
      = ((Converter_float_traced ops value).1,
          slotAfter error (Converter_float_traced ops value).2) ∧
    Converter_string ops value error
      = ((Converter_string_traced ops value).1,
          slotAfter error (Converter_string_traced ops value).2) ∧
    Converter_enum ops toEnum value error
      = ((Converter_enum_traced ops toEnum value).1,
          slotAfter error (Converter_enum_traced ops toEnum value).2) ∧
    Converter_Color ops parse value error
      = ((Converter_Color_traced ops parse value).1,
          slotAfter error (Converter_Color_traced ops parse value).2) ∧
    Converter_array2 ops value error
      = ((Converter_array2_traced ops value).1,
          slotAfter error (Converter_array2_traced ops value).2) ∧
    Converter_array4 ops thirdStorage fourthStorage value error
      = ((Converter_array4_traced ops thirdStorage fourthStorage value).1,
          slotAfter error (Converter_array4_traced ops thirdStorage fourthStorage value).2) ∧
    Converter_vector_float ops value error
      = ((Converter_vector_float_traced ops value).1,
          slotAfter error (Converter_vector_float_traced ops value).2) ∧
    Converter_vector_string ops value error
      = ((Converter_vector_string_traced ops value).1,
          slotAfter error (Converter_vector_string_traced ops value).2) := by
  obtain ⟨h1, h2, h3, h4, h5, h6, h7, h8, h9⟩ :=
    Converter_sameCall ops toEnum parse thirdStorage fourthStorage value error
  exact ⟨(sameCall_valueOrError _ _ _ h1).2, (sameCall_valueOrError _ _ _ h2).2,
    (sameCall_valueOrError _ _ _ h3).2, (sameCall_valueOrError _ _ _ h4).2,
    (sameCall_valueOrError _ _ _ h5).2, (sameCall_valueOrError _ _ _ h6).2,
    (sameCall_valueOrError _ _ _ h7).2, (sameCall_valueOrError _ _ _ h8).2,
    (sameCall_valueOrError _ _ _ h9).2⟩

/-- C14: each of the nine converters that take the error slot ends every call with a
value or with an error: the returned optional is absent exactly when the call assigned
the error slot, and the call assigns the slot at most once. -/
theorem Converter_value_or_error {V F T C : Type} (ops : ValueOps V F)
    (toEnum : String → Option T) (parse : String → Option C)
    (thirdStorage fourthStorage : F) (value : V) :
    valueOrError (Converter_bool_traced ops value) ∧
    valueOrError (Converter_float_traced ops value) ∧
    valueOrError (Converter_string_traced ops value) ∧
    valueOrError (Converter_enum_traced ops toEnum value) ∧
    valueOrError (Converter_Color_traced ops parse value) ∧
    valueOrError (Converter_array2_traced ops value) ∧
    valueOrError (Converter_array4_traced ops thirdStorage fourthStorage value) ∧
    valueOrError (Converter_vector_float_traced ops value) ∧
    valueOrError (Converter_vector_string_traced ops value) := by
  obtain ⟨h1, h2, h3, h4, h5, h6, h7, h8, h9⟩ :=
    Converter_sameCall ops toEnum parse thirdStorage fourthStorage value noError
  exact ⟨(sameCall_valueOrError _ _ _ h1).1, (sameCall_valueOrError _ _ _ h2).1,
    (sameCall_valueOrError _ _ _ h3).1, (sameCall_valueOrError _ _ _ h4).1,
    (sameCall_valueOrError _ _ _ h5).1, (sameCall_valueOrError _ _ _ h6).1,
    (sameCall_valueOrError _ _ _ h7).1, (sameCall_valueOrError _ _ _ h8).1,
    (sameCall_valueOrError _ _ _ h9).1⟩

theorem Converter_value_or_error_witness :
    Converter_vector_string_traced jsOps (.array [.string "a", .number 1, .string "c"])
      = (none, [⟨"value must be an array of strings"⟩]) ∧
    Converter_array2_traced jsOps (.array [.number 1, .number 2]) = (some (1, 2), []) ∧
    valueOrError
      (Converter_vector_string_traced jsOps (.array [.string "a", .number 1, .string "c"])) ∧
    valueOrError (Converter_array2_traced jsOps (.array [.number 1, .number 2])) :=
  ⟨by simp [Converter_vector_string_traced, Converter_vector_string_loop_traced, jsOps],
    rfl,
    (Converter_value_or_error jsOps LineCapType.toEnum parseRedOnly 0 0
      (.array [.string "a", .number 1, .string "c"])).2.2.2.2.2.2.2.2,
    (Converter_value_or_error jsOps LineCapType.toEnum parseRedOnly 0 0
      (.array [.number 1, .number 2])).2.2.2.2.2.1⟩

/-! ## The accessors' domains -/

theorem arrayLengthChecked_of_isArray {V F : Type} (ops : ValueOps V F) (value : V)
    (hArray : ops.isArray value = true) :
    arrayLengthChecked ops value = some (ops.arrayLength value) := by
  simp [arrayLengthChecked, hArray]

theorem arrayMemberChecked_of_lt {V F : Type} (ops : ValueOps V F) (value : V) (i : Nat)
    (hArray : ops.isArray value = true) (hi : i < ops.arrayLength value) :
    arrayMemberChecked ops value i = some (ops.arrayMember value i) := by
  simp [arrayMemberChecked, hArray, hi]

theorem Converter_vector_float_loop_checked_eq {V F : Type} (ops : ValueOps V F)
    (value : V) (error : Error) (hArray : ops.isArray value = true) (n : Nat) :
    ∀ (i : Nat) (result : List F), ops.arrayLength value - i = n →
    Converter_vector_float_loop_checked ops value i result error
      = some (Converter_vector_float_loop ops value i result error) := by
  induction n with
  | zero =>
    intro i result h
    have hi : ¬ i < ops.arrayLength value := by omega
    rw [Converter_vector_float_loop_checked, Converter_vector_float_loop]
    split
    · rename_i hnone
      rw [arrayLengthChecked_of_isArray ops value hArray] at hnone
      exact Option.noConfusion hnone
    · rename_i length hsome
      rw [arrayLengthChecked_of_isArray ops value hArray] at hsome
      cases hsome
      simp [hi]
  | succ n ih =>
    intro i result h
    have hi : i < ops.arrayLength value := by omega
    rw [Converter_vector_float_loop_checked, Converter_vector_float_loop]
    split
    · rename_i hnone
      rw [arrayLengthChecked_of_isArray ops value hArray] at hnone
      exact Option.noConfusion hnone
    · rename_i length hsome
      rw [arrayLengthChecked_of_isArray ops value hArray] at hsome
      cases hsome
      simp only [arrayMemberChecked_of_lt ops value i hArray hi, hi, if_true]
      cases ops.toNumber (ops.arrayMember value i) with
      | none => rfl
      | some x => exact ih (i + 1) (result ++ [x]) (by omega)

theorem Converter_vector_string_loop_checked_eq {V F : Type} (ops : ValueOps V F)
    (value : V) (error : Error) (hArray : ops.isArray value = true) (n : Nat) :
    ∀ (i : Nat) (result : List String), ops.arrayLength value - i = n →
    Converter_vector_string_loop_checked ops value i result error
      = some (Converter_vector_string_loop ops value i result error) := by
  induction n with
  | zero =>
    intro i result h
    have hi : ¬ i < ops.arrayLength value := by omega
    rw [Converter_vector_string_loop_checked, Converter_vector_string_loop]
    split
    · rename_i hnone
      rw [arrayLengthChecked_of_isArray ops value hArray] at hnone
      exact Option.noConfusion hnone
    · rename_i length hsome
      rw [arrayLengthChecked_of_isArray ops value hArray] at hsome
      cases hsome
      simp [hi]
  | succ n ih =>
    intro i result h
    have hi : i < ops.arrayLength value := by omega
    rw [Converter_vector_string_loop_checked, Converter_vector_string_loop]
    split
    · rename_i hnone
      rw [arrayLengthChecked_of_isArray ops value hArray] at hnone
      exact Option.noConfusion hnone
    · rename_i length hsome
      rw [arrayLengthChecked_of_isArray ops value hArray] at hsome
      cases hsome
      simp only [arrayMemberChecked_of_lt ops value i hArray hi, hi, if_true]
      cases ops.toString (ops.arrayMember value i) with
      | none => rfl
      | some x => exact ih (i + 1) (result ++ [x]) (by omega)

/-- C16: none of the five array converters calls an accessor outside its domain: with
`arrayLength` undefined off arrays and `arrayMember` undefined at and beyond the length,
every call still ends, in what the converter returns. -/
theorem Converter_array_stays_in_domain {V F : Type} (ops : ValueOps V F)
    (thirdStorage fourthStorage : F) (value : V) (error : Error) :
    Converter_array2_checked ops value error = some (Converter_array2 ops value error) ∧
    Converter_array3_checked ops value = some (Converter_array3 ops value) ∧
    Converter_array4_checked ops thirdStorage fourthStorage value error
      = some (Converter_array4 ops thirdStorage fourthStorage value error) ∧
    Converter_vector_float_checked ops value error
      = some (Converter_vector_float ops value error) ∧
    Converter_vector_string_checked ops value error
      = some (Converter_vector_string ops value error) := by
  cases hArray : ops.isArray value with
  | false =>
    simp [Converter_array2_checked, Converter_array2, Converter_array3_checked,
      Converter_array3, Converter_array4_checked, Converter_array4,
      Converter_vector_float_checked, Converter_vector_float,
      Converter_vector_string_checked, Converter_vector_string, hArray]
  | true =>
    refine ⟨?_, ?_, ?_, ?_, ?_⟩
    · by_cases hLength : ops.arrayLength value = 2
      · cases h0 : ops.toNumber (ops.arrayMember value 0) <;>
          cases h1 : ops.toNumber (ops.arrayMember value 1) <;>
          simp [Converter_array2_checked, Converter_array2, arrayLengthChecked,
            arrayMemberChecked, hArray, hLength, h0, h1]
      · simp [Converter_array2_checked, Converter_array2, arrayLengthChecked, hArray,
          hLength]
    · by_cases hLength : ops.arrayLength value = 3
      · cases h0 : ops.toNumber (ops.arrayMember value 0) <;>
          cases h1 : ops.toNumber (ops.arrayMember value 1) <;>
          cases h2 : ops.toNumber (ops.arrayMember value 2) <;>
          simp [Converter_array3_checked, Converter_array3, arrayLengthChecked,
            arrayMemberChecked, hArray, hLength, h0, h1, h2]
      · simp [Converter_array3_checked, Converter_array3, arrayLengthChecked, hArray,
          hLength]
    · by_cases hLength : ops.arrayLength value = 4
      · cases h0 : ops.toNumber (ops.arrayMember value 0) <;>
          cases h1 : ops.toNumber (ops.arrayMember value 1) <;>
          simp [Converter_array4_checked, Converter_array4, arrayLengthChecked,
            arrayMemberChecked, hArray, hLength, h0, h1]
      · simp [Converter_array4_checked, Converter_array4, arrayLengthChecked, hArray,
          hLength]
    · simp only [Converter_vector_float_checked, Converter_vector_float, hArray,
        Bool.not_true, Bool.false_eq_true, if_false,
        arrayLengthChecked_of_isArray ops value hArray]
      exact Converter_vector_float_loop_checked_eq ops value error hArray _ 0 [] rfl
    · simp only [Converter_vector_string_checked, Converter_vector_string, hArray,
        Bool.not_true, Bool.false_eq_true, if_false,
        arrayLengthChecked_of_isArray ops value hArray]
      exact Converter_vector_string_loop_checked_eq ops value error hArray _ 0 [] rfl

theorem Converter_array_stays_in_domain_witness :
    arrayLengthChecked jsOps (.number 5) = none ∧
    arrayMemberChecked jsOps (.array [.number 1, .number 2]) 2 = none ∧
    Converter_array2_checked jsOps (.array [.number 1, .number 2]) noError
      = some (some (1, 2), noError) ∧
    Converter_vector_float_checked jsOps (.number 5) noError
      = some (none, ⟨"value must be an array"⟩) :=
  ⟨rfl, rfl,
    (Converter_array_stays_in_domain jsOps 0 0 (.array [.number 1, .number 2]) noError).1,
    (Converter_array_stays_in_domain jsOps 0 0 (.number 5) noError).2.2.2.1⟩

end Conversion
